import Mathlib

/-!
# Verification of the Fastly CLI control-flow core

A shallow embedding, in Lean 4, of the control-flow heart of the CLI:

* `PublishCommand.Exec` (`pkg/commands/compute/publish.go`): the composite
  build-then-deploy command, with its was-set field propagation, its
  truthiness-gated status-check propagation, and its fail-fast sequencing.
* `Dictionaries.Configure` / `Dictionaries.Create` (`pkg/commands/compute/setup`):
  the two-phase dictionary provisioning orchestrator.
* The verbose/JSON mutual-exclusion guard shared by the list commands
  (s3, snippet, datadog, configstoreentry).

Collaborators (the Fastly API client, the spinner, stdin, the error log) are
modelled as explicit stubs; every call a function makes to a collaborator is
recorded in an event trace so that frame properties ("Configure never calls
the API client") are provable statements rather than artifacts of omission.

Go errors are modelled by the inductive `Err`; `fmt.Errorf("...: %w", e)`
becomes `Err.wrapped msg e`.  Note that in `Dictionaries.Create` the source
shadows the API error with the `Spinner.StopFail()` error inside the failure
branch (`err := d.Spinner.StopFail()`), so the value wrapped by the final
`fmt.Errorf` is the (nil) shadowed variable; the embedding reproduces this
faithfully (`Err.wrapped _ none`).
-/

namespace FastlyCLI

/-- Remediation hints attached to `errors.RemediationError`. `bug` is
`errors.BugRemediation`, the "please file an issue" hint. -/
inductive Remediation where
  | bug : Remediation
deriving DecidableEq, Repr

/-- Go error values. `wrapped msg inner` is `fmt.Errorf(msg+": %w", inner)`
with a non-nil `inner`; `wrappedNil msg` is the same call applied to a nil
error variable (which produces a non-nil error that wraps nothing); and
`remediation` is `errors.RemediationError{Inner, Remediation}`. -/
inductive Err where
  | str : String → Err
  | wrapped : String → Err → Err
  | wrappedNil : String → Err
  | remediation : Err → Remediation → Err
deriving DecidableEq, Repr

end FastlyCLI

namespace FastlyCLI

/-! ## Optional-value wrappers (`pkg/cmd`)

Each optional flag is a `(Value, WasSet)` pair; the flag's `Action` sets
`WasSet` when the user supplies the flag explicitly. -/

/-- `cmd.OptionalString`. -/
structure OptionalString where
  Value : String
  WasSet : Bool
deriving DecidableEq, Repr

/-- `cmd.OptionalBool`. -/
structure OptionalBool where
  Value : Bool
  WasSet : Bool
deriving DecidableEq, Repr

/-- `cmd.OptionalInt`. -/
structure OptionalInt where
  Value : Int
  WasSet : Bool
deriving DecidableEq, Repr

/-- `cmd.OptionalServiceNameID`. -/
structure OptionalServiceNameID where
  Value : String
  WasSet : Bool
deriving DecidableEq, Repr

/-- `cmd.OptionalServiceVersion`. -/
structure OptionalServiceVersion where
  Value : String
  WasSet : Bool
deriving DecidableEq, Repr

/-- `manifest.Data`, treated as an opaque token: `PublishCommand.Exec` only
copies it wholesale into the sub-commands. -/
structure ManifestData where
  token : Nat
deriving DecidableEq, Repr

/-! ## The publish composite (`pkg/commands/compute/publish.go`) -/

/-- The `Flags` field of `BuildCommand`, holding exactly the fields
`PublishCommand.Exec` assigns (`IncludeSrc`, `Lang`, `PackageName`,
`Timeout`). -/
structure BuildFlags where
  IncludeSrc : Bool
  Lang : String
  PackageName : String
  Timeout : Int
deriving DecidableEq, Repr

/-- The part of `BuildCommand` that `PublishCommand.Exec` mutates. -/
structure BuildCommand where
  Flags : BuildFlags
  Manifest : ManifestData
deriving DecidableEq, Repr

/-- The part of `DeployCommand` that `PublishCommand.Exec` mutates. -/
structure DeployCommand where
  Package : String
  ServiceName : OptionalServiceNameID
  ServiceVersion : OptionalServiceVersion
  Domain : String
  Comment : OptionalString
  Manifest : ManifestData
  StatusCheckCode : Int
  StatusCheckOff : Bool
  StatusCheckTimeout : Int
  StatusCheckPath : String
deriving DecidableEq, Repr

/-- `PublishCommand`: the composite's own flag fields. -/
structure PublishCommand where
  manifest : ManifestData
  includeSrc : OptionalBool
  lang : OptionalString
  packageName : OptionalString
  timeout : OptionalInt
  comment : OptionalString
  domain : OptionalString
  pkg : OptionalString
  serviceName : OptionalServiceNameID
  serviceVersion : OptionalServiceVersion
  statusCheckCode : Int
  statusCheckOff : Bool
  statusCheckPath : String
  statusCheckTimeout : Int
deriving DecidableEq, Repr

/-- The flag defaults established by `NewPublishCommand`: optional-wrapper
fields start unset with Go zero values, `status-check-path` defaults to
`"/"` and `status-check-timeout` to `120`. -/
def newPublishCommand (m : ManifestData) : PublishCommand :=
  { manifest := m
    includeSrc := ⟨false, false⟩
    lang := ⟨"", false⟩
    packageName := ⟨"", false⟩
    timeout := ⟨0, false⟩
    comment := ⟨"", false⟩
    domain := ⟨"", false⟩
    pkg := ⟨"", false⟩
    serviceName := ⟨"", false⟩
    serviceVersion := ⟨"", false⟩
    statusCheckCode := 0
    statusCheckOff := false
    statusCheckPath := "/"
    statusCheckTimeout := 120 }

/-- The first block of `PublishCommand.Exec` ("Reset the fields on the
BuildCommand based on PublishCommand values"), lines 88-100. -/
def copyBuildFields (c : PublishCommand) (b : BuildCommand) : BuildCommand :=
  let b := if c.includeSrc.WasSet then { b with Flags.IncludeSrc := c.includeSrc.Value } else b
  let b := if c.lang.WasSet then { b with Flags.Lang := c.lang.Value } else b
  let b := if c.packageName.WasSet then { b with Flags.PackageName := c.packageName.Value } else b
  let b := if c.timeout.WasSet then { b with Flags.Timeout := c.timeout.Value } else b
  { b with Manifest := c.manifest }

/-- The second block of `PublishCommand.Exec` ("Reset the fields on the
DeployCommand based on PublishCommand values"), lines 111-136. -/
def copyDeployFields (c : PublishCommand) (d : DeployCommand) : DeployCommand :=
  let d := if c.pkg.WasSet then { d with Package := c.pkg.Value } else d
  let d := if c.serviceName.WasSet then { d with ServiceName := c.serviceName } else d
  let d := if c.serviceVersion.WasSet then { d with ServiceVersion := c.serviceVersion } else d
  let d := if c.domain.WasSet then { d with Domain := c.domain.Value } else d
  let d := if c.comment.WasSet then { d with Comment := c.comment } else d
  let d := { d with Manifest := c.manifest }
  let d := if c.statusCheckCode > 0 then { d with StatusCheckCode := c.statusCheckCode } else d
  let d := if c.statusCheckOff then { d with StatusCheckOff := c.statusCheckOff } else d
  let d := if c.statusCheckTimeout > 0 then { d with StatusCheckTimeout := c.statusCheckTimeout } else d
  { d with StatusCheckPath := c.statusCheckPath }

/-- Observable outcome of one `PublishCommand.Exec` invocation. -/
structure PublishResult where
  /-- The build sub-command as passed to `build.Exec`. -/
  buildCmd : BuildCommand
  /-- The deploy sub-command after the second copy block (equal to the
  initial deploy command when the build phase failed, since the copy
  then never runs). -/
  deployCmd : DeployCommand
  /-- Whether `deploy.Exec` was invoked. -/
  deployInvoked : Bool
  /-- Whether the `text.Break` separator between phases was written. -/
  breakEmitted : Bool
  /-- Errors appended to `c.Globals.ErrLog`, in call order. -/
  errLog : List Err
  /-- The error returned by `Exec` (`none` = nil). -/
  ret : Option Err
deriving DecidableEq, Repr

/-- `PublishCommand.Exec`, parametric in the two phase executors (stubs for
`build.Exec` and `deploy.Exec`, each returning the phase's error or nil). -/
def publishExec (c : PublishCommand) (b : BuildCommand) (d : DeployCommand)
    (buildExec : BuildCommand → Option Err)
    (deployExec : DeployCommand → Option Err) : PublishResult :=
  let b := copyBuildFields c b
  match buildExec b with
  | some e =>
      { buildCmd := b, deployCmd := d, deployInvoked := false, breakEmitted := false
        errLog := [e], ret := some e }
  | none =>
      let d := copyDeployFields c d
      match deployExec d with
      | some e =>
          { buildCmd := b, deployCmd := d, deployInvoked := true, breakEmitted := true
            errLog := [e], ret := some e }
      | none =>
          { buildCmd := b, deployCmd := d, deployInvoked := true, breakEmitted := true
            errLog := [], ret := none }

/-! ### Theorems about the publish composite -/

/-- C1: for every was-set-gated optional field of `PublishCommand`
(include-source, language, package-name, build timeout, package path,
service name, service version, domain, comment), the copy step of
`PublishCommand.Exec` writes the publish value into the corresponding
sub-command field exactly when `WasSet` is true (even when the value is a
zero value), and leaves the sub-command field unchanged otherwise. -/
theorem publish_wasSet_propagation (c : PublishCommand) (b : BuildCommand) (d : DeployCommand) :
    (copyBuildFields c b).Flags.IncludeSrc
      = (if c.includeSrc.WasSet then c.includeSrc.Value else b.Flags.IncludeSrc)
    ∧ (copyBuildFields c b).Flags.Lang
      = (if c.lang.WasSet then c.lang.Value else b.Flags.Lang)
    ∧ (copyBuildFields c b).Flags.PackageName
      = (if c.packageName.WasSet then c.packageName.Value else b.Flags.PackageName)
    ∧ (copyBuildFields c b).Flags.Timeout
      = (if c.timeout.WasSet then c.timeout.Value else b.Flags.Timeout)
    ∧ (copyDeployFields c d).Package
      = (if c.pkg.WasSet then c.pkg.Value else d.Package)
    ∧ (copyDeployFields c d).ServiceName
      = (if c.serviceName.WasSet then c.serviceName else d.ServiceName)
    ∧ (copyDeployFields c d).ServiceVersion
      = (if c.serviceVersion.WasSet then c.serviceVersion else d.ServiceVersion)
    ∧ (copyDeployFields c d).Domain
      = (if c.domain.WasSet then c.domain.Value else d.Domain)
    ∧ (copyDeployFields c d).Comment
      = (if c.comment.WasSet then c.comment else d.Comment) := by
  unfold copyBuildFields copyDeployFields
  refine ⟨?_, ?_, ?_, ?_, ?_, ?_, ?_, ?_, ?_⟩ <;>
    simp only [apply_ite (BuildCommand.Flags), apply_ite (BuildFlags.IncludeSrc),
      apply_ite (BuildFlags.Lang), apply_ite (BuildFlags.PackageName),
      apply_ite (BuildFlags.Timeout), apply_ite (DeployCommand.Package),
      apply_ite (DeployCommand.ServiceName), apply_ite (DeployCommand.ServiceVersion),
      apply_ite (DeployCommand.Domain), apply_ite (DeployCommand.Comment), ite_self]

/-- C2: in `PublishCommand.Exec`, a build-phase error suppresses the deploy
phase entirely; the failing phase's error is appended (alone) to the error
log and returned unmodified, and a deploy-phase error is handled
symmetrically after the build phase succeeded. -/
theorem publish_failFast (c : PublishCommand) (b : BuildCommand) (d : DeployCommand)
    (buildExec : BuildCommand → Option Err) (deployExec : DeployCommand → Option Err) :
    (∀ e, buildExec (copyBuildFields c b) = some e →
      publishExec c b d buildExec deployExec =
        { buildCmd := copyBuildFields c b, deployCmd := d, deployInvoked := false
          breakEmitted := false, errLog := [e], ret := some e })
    ∧ (∀ e, buildExec (copyBuildFields c b) = none →
        deployExec (copyDeployFields c d) = some e →
      publishExec c b d buildExec deployExec =
        { buildCmd := copyBuildFields c b, deployCmd := copyDeployFields c d
          deployInvoked := true, breakEmitted := true, errLog := [e], ret := some e }) := by
  constructor
  · intro e hb
    simp only [publishExec, hb]
  · intro e hb hd
    simp only [publishExec, hb, hd]

/-- Witness for `publish_failFast` at concrete inputs: a failing build stub
is returned unmodified with the deploy stub never invoked, and a failing
deploy stub after a successful build is returned unmodified. -/
theorem publish_failFast_witness :
    (publishExec (newPublishCommand ⟨0⟩) ⟨⟨false, "", "", 0⟩, ⟨1⟩⟩
        ⟨"", ⟨"", false⟩, ⟨"", false⟩, "", ⟨"", false⟩, ⟨1⟩, 0, false, 0, ""⟩
        (fun _ => some (Err.str "build failed")) (fun _ => none) =
      { buildCmd := copyBuildFields (newPublishCommand ⟨0⟩) ⟨⟨false, "", "", 0⟩, ⟨1⟩⟩
        deployCmd := ⟨"", ⟨"", false⟩, ⟨"", false⟩, "", ⟨"", false⟩, ⟨1⟩, 0, false, 0, ""⟩
        deployInvoked := false, breakEmitted := false
        errLog := [Err.str "build failed"], ret := some (Err.str "build failed") })
    ∧ (publishExec (newPublishCommand ⟨0⟩) ⟨⟨false, "", "", 0⟩, ⟨1⟩⟩
        ⟨"", ⟨"", false⟩, ⟨"", false⟩, "", ⟨"", false⟩, ⟨1⟩, 0, false, 0, ""⟩
        (fun _ => none) (fun _ => some (Err.str "deploy failed")) =
      { buildCmd := copyBuildFields (newPublishCommand ⟨0⟩) ⟨⟨false, "", "", 0⟩, ⟨1⟩⟩
        deployCmd := copyDeployFields (newPublishCommand ⟨0⟩)
          ⟨"", ⟨"", false⟩, ⟨"", false⟩, "", ⟨"", false⟩, ⟨1⟩, 0, false, 0, ""⟩
        deployInvoked := true, breakEmitted := true
        errLog := [Err.str "deploy failed"], ret := some (Err.str "deploy failed") }) :=
  ⟨(publish_failFast (newPublishCommand ⟨0⟩) ⟨⟨false, "", "", 0⟩, ⟨1⟩⟩
      ⟨"", ⟨"", false⟩, ⟨"", false⟩, "", ⟨"", false⟩, ⟨1⟩, 0, false, 0, ""⟩
      (fun _ => some (Err.str "build failed")) (fun _ => none)).1
    (Err.str "build failed") rfl,
   (publish_failFast (newPublishCommand ⟨0⟩) ⟨⟨false, "", "", 0⟩, ⟨1⟩⟩
      ⟨"", ⟨"", false⟩, ⟨"", false⟩, "", ⟨"", false⟩, ⟨1⟩, 0, false, 0, ""⟩
      (fun _ => none) (fun _ => some (Err.str "deploy failed"))).2
    (Err.str "deploy failed") rfl rfl⟩

/-- C3: the status-check fields are propagated by value, not by was-set
marker: code and timeout overwrite the deploy sub-command exactly when
strictly positive (0 never overwrites, 200 does), and the off flag
overwrites exactly when literally true. -/
theorem publish_statusCheck_gating (c : PublishCommand) (d : DeployCommand) :
    (copyDeployFields c d).StatusCheckCode
      = (if c.statusCheckCode > 0 then c.statusCheckCode else d.StatusCheckCode)
    ∧ (copyDeployFields c d).StatusCheckTimeout
      = (if c.statusCheckTimeout > 0 then c.statusCheckTimeout else d.StatusCheckTimeout)
    ∧ (copyDeployFields c d).StatusCheckOff
      = (if c.statusCheckOff then true else d.StatusCheckOff)
    ∧ (copyDeployFields { c with statusCheckCode := 0 } d).StatusCheckCode = d.StatusCheckCode
    ∧ (copyDeployFields { c with statusCheckCode := 200 } d).StatusCheckCode = 200 := by
  unfold copyDeployFields
  refine ⟨?_, ?_, ?_, ?_, ?_⟩ <;>
    simp only [apply_ite (DeployCommand.StatusCheckCode),
      apply_ite (DeployCommand.StatusCheckTimeout), apply_ite (DeployCommand.StatusCheckOff),
      ite_self] <;>
    first
      | rfl
      | (cases hc : c.statusCheckOff <;> simp [hc])

/-! ## The dictionary setup orchestrator (`pkg/commands/compute/setup`)

`Dictionaries` resolves the `[setup.dictionaries]` manifest section
(`Configure`) and then creates the resources remotely (`Create`).

Collaborator calls are recorded as `SetupEvent`s: stdin reads and text
output during `Configure`; spinner and API-client calls during `Create`.
The Go maps `Setup` and `Items` are embedded as association lists (one
entry per declared name), abstracting the map's iteration order into the
list order. -/

/-- One declared item of `manifest.SetupDictionary` (`Items` map entry). -/
structure SetupItem where
  Value : String
  Description : String
deriving DecidableEq, Repr

/-- `manifest.SetupDictionary`: one `[setup.dictionaries.<name>]` block. -/
structure SetupDictionary where
  Description : String
  Items : List (String × SetupItem)
deriving DecidableEq, Repr

/-- `setup.DictionaryItem`: a resolved key/value pair. -/
structure DictionaryItem where
  Key : String
  Value : String
deriving DecidableEq, Repr

/-- `setup.Dictionary`: a resolved dictionary, ready for creation. -/
structure Dictionary where
  Name : String
  Items : List DictionaryItem
deriving DecidableEq, Repr

/-- A collaborator call observable from outside the orchestrator. -/
inductive SetupEvent where
  /-- One line written via `text.Output`/`text.Break` to `Stdout`. -/
  | output : String → SetupEvent
  /-- One `text.Input` read of interactive input (`Stdin`), by read index. -/
  | promptRead : Nat → SetupEvent
  /-- `Spinner.Start`. -/
  | spinnerStart : SetupEvent
  /-- `Spinner.Message`. -/
  | spinnerMessage : String → SetupEvent
  /-- `Spinner.StopMessage`. -/
  | spinnerStopMessage : String → SetupEvent
  /-- `Spinner.Stop`. -/
  | spinnerStop : SetupEvent
  /-- `Spinner.StopFailMessage`. -/
  | spinnerStopFailMessage : String → SetupEvent
  /-- `Spinner.StopFail`. -/
  | spinnerStopFail : SetupEvent
  /-- `APIClient.CreateDictionary(ServiceID, ServiceVersion, Name)`, together
  with the error the call returned (`none` = the call succeeded). -/
  | apiCreateDictionary : String → Int → String → Option Err → SetupEvent
  /-- `APIClient.CreateDictionaryItem(ServiceID, DictionaryID, Key, Value)`,
  together with the error the call returned (`none` = success). -/
  | apiCreateDictionaryItem : String → String → String → String → Option Err → SetupEvent
deriving DecidableEq, Repr

/-- Is the event a call on the API client collaborator? -/
def SetupEvent.isApiCall : SetupEvent → Bool
  | .apiCreateDictionary _ _ _ _ => true
  | .apiCreateDictionaryItem _ _ _ _ _ => true
  | _ => false

/-- Is the event an API-client call that returned an error? -/
def SetupEvent.isFailedApiCall : SetupEvent → Bool
  | .apiCreateDictionary _ _ _ (some _) => true
  | .apiCreateDictionaryItem _ _ _ _ (some _) => true
  | _ => false

/-- Is the event an interactive-input read? -/
def SetupEvent.isPromptRead : SetupEvent → Bool
  | .promptRead _ => true
  | _ => false

/-- The `Dictionaries` orchestrator's configuration fields. The API client,
spinner and stdin collaborators are supplied separately as stubs. -/
structure Dictionaries where
  AcceptDefaults : Bool
  NonInteractive : Bool
  ServiceID : String
  ServiceVersion : Int
  Setup : List (String × SetupDictionary)
deriving DecidableEq, Repr

/-- Stub for the `Stdin` reader: result of the n-th `text.Input` read,
either a line or a read error. -/
def StdinStub := Nat → Except Err String

/-- Stub for the API client: `createDictionary n` is the result of the n-th
`CreateDictionary` call (the created dictionary's `ID`, or an error);
`createDictionaryItem n` is the result of the n-th `CreateDictionaryItem`
call. -/
structure ApiStub where
  createDictionary : Nat → Except Err String
  createDictionaryItem : Nat → Except Err Unit

/-- Stub for the spinner: results of the n-th `Start`, `Stop` and
`StopFail` calls (`none` = nil error). `Message`, `StopMessage` and
`StopFailMessage` return nothing in the source. -/
structure SpinnerStub where
  start : Nat → Option Err
  stop : Nat → Option Err
  stopFail : Nat → Option Err

/-- `Predefined`: the orchestrator is active iff the `[setup]` block
declares at least one dictionary (`len(d.Setup) > 0`). -/
def Dictionaries.Predefined (d : Dictionaries) : Bool :=
  d.Setup.length > 0

/-- The body of `Configure`'s inner loop for one declared item (`part_000`
lines 216-250): compute the prompt default `dv` (`"example"` unless the
item declares a value), prompt and read one line in fully-interactive
mode, and fall back to `dv` when the read line is empty.  Returns the
emitted events, the next read index, and the resolved item or the wrapped
read error. -/
def configureItem (d : Dictionaries) (stdin : StdinStub) (n : Nat)
    (key : String) (item : SetupItem) :
    List SetupEvent × Nat × Except Err DictionaryItem :=
  let dv := if item.Value ≠ "" then item.Value else "example"
  if !d.AcceptDefaults && !d.NonInteractive then
    let evs := [SetupEvent.output "", SetupEvent.output ("Create a dictionary key called " ++ key)]
      ++ (if item.Description ≠ "" then [SetupEvent.output item.Description] else [])
      ++ [SetupEvent.output "", SetupEvent.promptRead n]
    match stdin n with
    | .error e => (evs, n + 1, .error (Err.wrapped "error reading prompt input" e))
    | .ok value =>
        let value := if value = "" then dv else value
        (evs, n + 1, .ok ⟨key, value⟩)
  else
    (([] : List SetupEvent), n, .ok ⟨key, dv⟩)

/-- `Configure`'s inner loop over a dictionary's declared items. -/
def configureItems (d : Dictionaries) (stdin : StdinStub) (n : Nat) :
    List (String × SetupItem) → List SetupEvent × Nat × Except Err (List DictionaryItem)
  | [] => ([], n, .ok [])
  | (key, item) :: rest =>
      match configureItem d stdin n key item with
      | (evs, n', .error e) => (evs, n', .error e)
      | (evs, n', .ok di) =>
          match configureItems d stdin n' rest with
          | (evs', n'', .error e) => (evs ++ evs', n'', .error e)
          | (evs', n'', .ok dis) => (evs ++ evs', n'', .ok (di :: dis))

/-- `Configure`'s outer loop over the declared dictionaries (`part_000`
lines 205-256), accumulating resolved dictionaries onto `d.required`. -/
def configureLoop (d : Dictionaries) (stdin : StdinStub) (n : Nat) :
    List (String × SetupDictionary) → List SetupEvent × Nat × Except Err (List Dictionary)
  | [] => ([], n, .ok [])
  | (name, settings) :: rest =>
      let header : List SetupEvent :=
        if !d.AcceptDefaults && !d.NonInteractive then
          [SetupEvent.output "", SetupEvent.output ("Configuring dictionary " ++ name)]
            ++ (if settings.Description ≠ "" then [SetupEvent.output settings.Description] else [])
        else []
      match configureItems d stdin n settings.Items with
      | (evs, n', .error e) => (header ++ evs, n', .error e)
      | (evs, n', .ok items) =>
          match configureLoop d stdin n' rest with
          | (evs', n'', .error e) => (header ++ evs ++ evs', n'', .error e)
          | (evs', n'', .ok dicts) => (header ++ evs ++ evs', n'', .ok (⟨name, items⟩ :: dicts))

/-- `Dictionaries.Configure`: resolve every declared dictionary and item,
appending to the `required` accumulator; returns the event trace and
either the new `required` list or the wrapped read error. -/
def Dictionaries.Configure (d : Dictionaries) (stdin : StdinStub)
    (required : List Dictionary) :
    List SetupEvent × Except Err (List Dictionary) :=
  match configureLoop d stdin 0 d.Setup with
  | (evs, _, .error e) => (evs, .error e)
  | (evs, _, .ok dicts) => (evs, .ok (required ++ dicts))

/-- Call counters threaded through `Create` so each collaborator stub is
consulted at its own call index. -/
structure CallCounters where
  spinStart : Nat
  spinStop : Nat
  spinStopFail : Nat
  apiDict : Nat
  apiItem : Nat
deriving DecidableEq, Repr

/-- All-zero counters at entry to `Create`. -/
def CallCounters.init : CallCounters := ⟨0, 0, 0, 0, 0⟩

/-- The body of `Create`'s inner loop for one resolved item (`part_000`
lines 299-327): `Spinner.Start`, `Spinner.Message`, the `CreateDictionaryItem`
call, then either `StopFailMessage`/`StopFail` and an error return, or
`StopMessage`/`Stop`.  On an API failure, the source shadows the API error
with the `StopFail` error, so the final wrapped error wraps a nil error
(`Err.wrappedNil`). -/
def createItem1 (d : Dictionaries) (api : ApiStub) (sp : SpinnerStub)
    (ctr : CallCounters) (dictID : String) (item : DictionaryItem) :
    List SetupEvent × CallCounters × Option Err :=
  match sp.start ctr.spinStart with
  | some e => ([.spinnerStart], { ctr with spinStart := ctr.spinStart + 1 }, some e)
  | none =>
      let ctr := { ctr with spinStart := ctr.spinStart + 1 }
      let msg := "Creating dictionary item " ++ item.Key
      let evs := [SetupEvent.spinnerStart, SetupEvent.spinnerMessage (msg ++ "...")]
      match api.createDictionaryItem ctr.apiItem with
      | .error ae =>
          let ctr := { ctr with apiItem := ctr.apiItem + 1 }
          let evs := evs
            ++ [SetupEvent.apiCreateDictionaryItem d.ServiceID dictID item.Key item.Value (some ae),
                SetupEvent.spinnerStopFailMessage msg, SetupEvent.spinnerStopFail]
          match sp.stopFail ctr.spinStopFail with
          | some e => (evs, { ctr with spinStopFail := ctr.spinStopFail + 1 }, some e)
          | none => (evs, { ctr with spinStopFail := ctr.spinStopFail + 1 },
              some (Err.wrappedNil "error creating dictionary item"))
      | .ok _ =>
          let ctr := { ctr with apiItem := ctr.apiItem + 1 }
          let evs := evs
            ++ [SetupEvent.apiCreateDictionaryItem d.ServiceID dictID item.Key item.Value none,
                SetupEvent.spinnerStopMessage msg, SetupEvent.spinnerStop]
          match sp.stop ctr.spinStop with
          | some e => (evs, { ctr with spinStop := ctr.spinStop + 1 }, some e)
          | none => (evs, { ctr with spinStop := ctr.spinStop + 1 }, none)

/-- `Create`'s inner loop over a resolved dictionary's items, stopping at
the first error. -/
def createItems (d : Dictionaries) (api : ApiStub) (sp : SpinnerStub)
    (ctr : CallCounters) (dictID : String) :
    List DictionaryItem → List SetupEvent × CallCounters × Option Err
  | [] => ([], ctr, none)
  | item :: rest =>
      match createItem1 d api sp ctr dictID item with
      | (evs, ctr', some e) => (evs, ctr', some e)
      | (evs, ctr', none) =>
          match createItems d api sp ctr' dictID rest with
          | (evs', ctr'', r) => (evs ++ evs', ctr'', r)

/-- The body of `Create`'s outer loop for one resolved dictionary
(`part_000` lines 270-328): `Spinner.Start`, `Spinner.Message`, the
`CreateDictionary` call, then either the failure path
(`StopFailMessage`/`StopFail`, error return with the shadowed-nil wrap) or
`StopMessage`/`Stop` followed by the item loop when the dictionary has
items. -/
def createDict1 (d : Dictionaries) (api : ApiStub) (sp : SpinnerStub)
    (ctr : CallCounters) (dict : Dictionary) :
    List SetupEvent × CallCounters × Option Err :=
  match sp.start ctr.spinStart with
  | some e => ([.spinnerStart], { ctr with spinStart := ctr.spinStart + 1 }, some e)
  | none =>
      let ctr := { ctr with spinStart := ctr.spinStart + 1 }
      let msg := "Creating dictionary " ++ dict.Name
      let evs := [SetupEvent.spinnerStart, SetupEvent.spinnerMessage (msg ++ "...")]
      match api.createDictionary ctr.apiDict with
      | .error ae =>
          let ctr := { ctr with apiDict := ctr.apiDict + 1 }
          let evs := evs
            ++ [SetupEvent.apiCreateDictionary d.ServiceID d.ServiceVersion dict.Name (some ae),
                SetupEvent.spinnerStopFailMessage msg, SetupEvent.spinnerStopFail]
          match sp.stopFail ctr.spinStopFail with
          | some e => (evs, { ctr with spinStopFail := ctr.spinStopFail + 1 }, some e)
          | none => (evs, { ctr with spinStopFail := ctr.spinStopFail + 1 },
              some (Err.wrappedNil "error creating dictionary"))
      | .ok dictID =>
          let ctr := { ctr with apiDict := ctr.apiDict + 1 }
          let evs := evs
            ++ [SetupEvent.apiCreateDictionary d.ServiceID d.ServiceVersion dict.Name none,
                SetupEvent.spinnerStopMessage msg, SetupEvent.spinnerStop]
          match sp.stop ctr.spinStop with
          | some e => (evs, { ctr with spinStop := ctr.spinStop + 1 }, some e)
          | none =>
              let ctr := { ctr with spinStop := ctr.spinStop + 1 }
              if dict.Items.length > 0 then
                match createItems d api sp ctr dictID dict.Items with
                | (evs', ctr', r) => (evs ++ evs', ctr', r)
              else (evs, ctr, none)

/-- `Create`'s outer loop over the resolved dictionaries, stopping at the
first error. -/
def createLoop (d : Dictionaries) (api : ApiStub) (sp : SpinnerStub)
    (ctr : CallCounters) :
    List Dictionary → List SetupEvent × CallCounters × Option Err
  | [] => ([], ctr, none)
  | dict :: rest =>
      match createDict1 d api sp ctr dict with
      | (evs, ctr', some e) => (evs, ctr', some e)
      | (evs, ctr', none) =>
          match createLoop d api sp ctr' rest with
          | (evs', ctr'', r) => (evs ++ evs', ctr'', r)

/-- `Dictionaries.Create`: fails fatally when no spinner is configured
(`part_000` lines 263-268), otherwise walks the resolved dictionaries
(`required`, as produced by `Configure`) issuing the create calls. -/
def Dictionaries.Create (d : Dictionaries) (spinner : Option SpinnerStub)
    (api : ApiStub) (required : List Dictionary) :
    List SetupEvent × Option Err :=
  match spinner with
  | none =>
      ([], some (Err.remediation
        (Err.str "internal logic error: no text.Progress configured for setup.Dictionaries")
        Remediation.bug))
  | some sp =>
      match createLoop d api sp CallCounters.init required with
      | (evs, _, r) => (evs, r)

/-- A trace is fail-stopped when no API-client call occurs after a failed
API-client call. -/
def noApiCallAfterFailure : List SetupEvent → Bool
  | [] => true
  | e :: rest =>
      if e.isFailedApiCall then rest.all (fun x => !x.isApiCall)
      else noApiCallAfterFailure rest

/-! ### Theorems about the setup orchestrator -/

/-- `configureItem` emits no API-client call. -/
theorem configureItem_no_api (d : Dictionaries) (stdin : StdinStub) (n : Nat)
    (key : String) (item : SetupItem) :
    ((configureItem d stdin n key item).1.all fun e => !e.isApiCall) = true := by
  unfold configureItem
  dsimp only
  split
  · cases stdin n <;>
      simp [List.all_append, SetupEvent.isApiCall,
        apply_ite (fun l : List SetupEvent => l.all fun e => !e.isApiCall)]
  · rfl

/-- `configureItems` emits no API-client call. -/
theorem configureItems_no_api (d : Dictionaries) (stdin : StdinStub) :
    ∀ (items : List (String × SetupItem)) (n : Nat),
    ((configureItems d stdin n items).1.all fun e => !e.isApiCall) = true := by
  intro items
  induction items with
  | nil => intro n; rfl
  | cons hd tl ih =>
      intro n
      obtain ⟨key, item⟩ := hd
      have h1 := configureItem_no_api d stdin n key item
      unfold configureItems
      rcases hc : configureItem d stdin n key item with ⟨evs, n', r⟩
      rw [hc] at h1
      cases r with
      | error e => simpa using h1
      | ok di =>
          have h2 := ih n'
          rcases hr : configureItems d stdin n' tl with ⟨evs', n'', r'⟩
          rw [hr] at h2
          cases r' <;> simp_all [List.all_append]

/-- `configureLoop` emits no API-client call. -/
theorem configureLoop_no_api (d : Dictionaries) (stdin : StdinStub) :
    ∀ (setup : List (String × SetupDictionary)) (n : Nat),
    ((configureLoop d stdin n setup).1.all fun e => !e.isApiCall) = true := by
  intro setup
  induction setup with
  | nil => intro n; rfl
  | cons hd tl ih =>
      intro n
      obtain ⟨name, settings⟩ := hd
      have h1 := configureItems_no_api d stdin settings.Items n
      unfold configureLoop
      rcases hc : configureItems d stdin n settings.Items with ⟨evs, n', r⟩
      rw [hc] at h1
      have hheader : ((if !d.AcceptDefaults && !d.NonInteractive then
          [SetupEvent.output "", SetupEvent.output ("Configuring dictionary " ++ name)]
            ++ (if settings.Description ≠ "" then [SetupEvent.output settings.Description] else [])
          else []).all fun e => !e.isApiCall) = true := by
        split
        · simp [List.all_append, SetupEvent.isApiCall,
            apply_ite (fun l : List SetupEvent => l.all fun e => !e.isApiCall)]
        · rfl
      cases r with
      | error e => simp_all [List.all_append]
      | ok items =>
          have h2 := ih n'
          rcases hr : configureLoop d stdin n' tl with ⟨evs', n'', r'⟩
          rw [hr] at h2
          cases r' <;> simp_all [List.all_append]

/-- `createItem1` emits no interactive-input read. -/
theorem createItem1_no_prompt (d : Dictionaries) (api : ApiStub) (sp : SpinnerStub)
    (ctr : CallCounters) (dictID : String) (item : DictionaryItem) :
    ((createItem1 d api sp ctr dictID item).1.all fun e => !e.isPromptRead) = true := by
  unfold createItem1
  cases sp.start ctr.spinStart with
  | some e => rfl
  | none =>
      dsimp only
      cases api.createDictionaryItem ctr.apiItem with
      | error ae =>
          dsimp only
          cases sp.stopFail ctr.spinStopFail <;> rfl
      | ok u =>
          dsimp only
          cases sp.stop ctr.spinStop <;> rfl

/-- `createItems` emits no interactive-input read. -/
theorem createItems_no_prompt (d : Dictionaries) (api : ApiStub) (sp : SpinnerStub)
    (dictID : String) :
    ∀ (items : List DictionaryItem) (ctr : CallCounters),
    ((createItems d api sp ctr dictID items).1.all fun e => !e.isPromptRead) = true := by
  intro items
  induction items with
  | nil => intro ctr; rfl
  | cons hd tl ih =>
      intro ctr
      have h1 := createItem1_no_prompt d api sp ctr dictID hd
      unfold createItems
      rcases hc : createItem1 d api sp ctr dictID hd with ⟨evs, ctr', r⟩
      rw [hc] at h1
      cases r with
      | some e => simpa using h1
      | none =>
          have h2 := ih ctr'
          rcases hr : createItems d api sp ctr' dictID tl with ⟨evs', ctr'', r'⟩
          rw [hr] at h2
          simp_all [List.all_append]

/-- `createDict1` emits no interactive-input read. -/
theorem createDict1_no_prompt (d : Dictionaries) (api : ApiStub) (sp : SpinnerStub)
    (ctr : CallCounters) (dict : Dictionary) :
    ((createDict1 d api sp ctr dict).1.all fun e => !e.isPromptRead) = true := by
  unfold createDict1
  cases sp.start ctr.spinStart with
  | some e => rfl
  | none =>
      dsimp only
      cases api.createDictionary ctr.apiDict with
      | error ae =>
          dsimp only
          cases sp.stopFail ctr.spinStopFail <;> rfl
      | ok dictID =>
          dsimp only
          cases sp.stop ctr.spinStop with
          | some e => rfl
          | none =>
              dsimp only
              split
              · simp only [List.all_append, Bool.and_eq_true]
                exact ⟨⟨rfl, rfl⟩, createItems_no_prompt d api sp dictID dict.Items _⟩
              · rfl

/-- `createLoop` emits no interactive-input read. -/
theorem createLoop_no_prompt (d : Dictionaries) (api : ApiStub) (sp : SpinnerStub) :
    ∀ (dicts : List Dictionary) (ctr : CallCounters),
    ((createLoop d api sp ctr dicts).1.all fun e => !e.isPromptRead) = true := by
  intro dicts
  induction dicts with
  | nil => intro ctr; rfl
  | cons hd tl ih =>
      intro ctr
      have h1 := createDict1_no_prompt d api sp ctr hd
      unfold createLoop
      rcases hc : createDict1 d api sp ctr hd with ⟨evs, ctr', r⟩
      rw [hc] at h1
      cases r with
      | some e => simpa using h1
      | none =>
          have h2 := ih ctr'
          rcases hr : createLoop d api sp ctr' tl with ⟨evs', ctr'', r'⟩
          rw [hr] at h2
          simp_all [List.all_append]

/-- C5: phase separation — `Configure` never calls the API client (its
trace holds no API-call event, only output and prompt reads), and `Create`
never reads interactive input (its trace holds no prompt-read event). -/
theorem setup_phase_separation (d : Dictionaries) (stdin : StdinStub)
    (required : List Dictionary) (spinner : Option SpinnerStub) (api : ApiStub)
    (required' : List Dictionary) :
    ((d.Configure stdin required).1.all fun e => !e.isApiCall) = true
    ∧ ((d.Create spinner api required').1.all fun e => !e.isPromptRead) = true := by
  constructor
  · have h := configureLoop_no_api d stdin d.Setup 0
    unfold Dictionaries.Configure
    rcases hc : configureLoop d stdin 0 d.Setup with ⟨evs, n, r⟩
    rw [hc] at h
    cases r <;> simpa using h
  · cases spinner with
    | none => rfl
    | some sp =>
        show ((createLoop d api sp CallCounters.init required').1.all
          fun e => !e.isPromptRead) = true
        exact createLoop_no_prompt d api sp required' CallCounters.init

/-- In accept-defaults or non-interactive mode, one item resolves silently
to its declared default, or `"example"` when none was declared. -/
theorem configureItem_defaults (d : Dictionaries) (stdin : StdinStub) (n : Nat)
    (key : String) (item : SetupItem)
    (hmode : (d.AcceptDefaults || d.NonInteractive) = true) :
    configureItem d stdin n key item =
      ([], n, .ok ⟨key, if item.Value ≠ "" then item.Value else "example"⟩) := by
  have hg : (!d.AcceptDefaults && !d.NonInteractive) = false := by
    cases hA : d.AcceptDefaults <;> cases hN : d.NonInteractive <;> simp_all
  simp [configureItem, hg]

/-- In accept-defaults or non-interactive mode, the item loop resolves every
declared item to its default (or `"example"`), emitting nothing. -/
theorem configureItems_defaults (d : Dictionaries) (stdin : StdinStub)
    (hmode : (d.AcceptDefaults || d.NonInteractive) = true) :
    ∀ (items : List (String × SetupItem)) (n : Nat),
    configureItems d stdin n items =
      ([], n, .ok (items.map fun p =>
        ⟨p.1, if p.2.Value ≠ "" then p.2.Value else "example"⟩)) := by
  intro items
  induction items with
  | nil => intro n; rfl
  | cons hd tl ih =>
      intro n
      obtain ⟨key, item⟩ := hd
      unfold configureItems
      rw [configureItem_defaults d stdin n key item hmode]
      dsimp only
      rw [ih n]
      simp

/-- In accept-defaults or non-interactive mode, the dictionary loop resolves
the whole declared spec to defaults, emitting nothing. -/
theorem configureLoop_defaults (d : Dictionaries) (stdin : StdinStub)
    (hmode : (d.AcceptDefaults || d.NonInteractive) = true) :
    ∀ (setup : List (String × SetupDictionary)) (n : Nat),
    configureLoop d stdin n setup =
      ([], n, .ok (setup.map fun p =>
        ⟨p.1, p.2.Items.map fun q =>
          ⟨q.1, if q.2.Value ≠ "" then q.2.Value else "example"⟩⟩)) := by
  have hg : (!d.AcceptDefaults && !d.NonInteractive) = false := by
    cases hA : d.AcceptDefaults <;> cases hN : d.NonInteractive <;> simp_all
  intro setup
  induction setup with
  | nil => intro n; rfl
  | cons hd tl ih =>
      intro n
      obtain ⟨name, settings⟩ := hd
      unfold configureLoop
      rw [configureItems_defaults d stdin hmode settings.Items n]
      dsimp only
      rw [ih n, hg]
      simp

/-- The only error `configureItem` can produce wraps a failed interactive
read. -/
theorem configureItem_error_shape (d : Dictionaries) (stdin : StdinStub) (n : Nat)
    (key : String) (item : SetupItem) (e : Err)
    (h : (configureItem d stdin n key item).2.2 = Except.error e) :
    ∃ inner, e = Err.wrapped "error reading prompt input" inner := by
  unfold configureItem at h
  dsimp only at h
  split at h
  · cases hs : stdin n with
    | error e0 =>
        rw [hs] at h
        dsimp only at h
        exact ⟨e0, (Except.error.inj h).symm⟩
    | ok v => rw [hs] at h; dsimp only at h; exact absurd h (by simp)
  · exact absurd h (by simp)

/-- The only error the item loop can produce wraps a failed interactive
read. -/
theorem configureItems_error_shape (d : Dictionaries) (stdin : StdinStub) :
    ∀ (items : List (String × SetupItem)) (n : Nat) (e : Err),
    (configureItems d stdin n items).2.2 = Except.error e →
    ∃ inner, e = Err.wrapped "error reading prompt input" inner := by
  intro items
  induction items with
  | nil => intro n e h; exact absurd h (by simp [configureItems])
  | cons hd tl ih =>
      intro n e h
      obtain ⟨key, item⟩ := hd
      unfold configureItems at h
      rcases hc : configureItem d stdin n key item with ⟨evs, n', r⟩
      rw [hc] at h
      cases r with
      | error e1 =>
          dsimp only at h
          obtain rfl := Except.error.inj h
          exact configureItem_error_shape d stdin n key item e1 (by rw [hc])
      | ok di =>
          dsimp only at h
          rcases hr : configureItems d stdin n' tl with ⟨evs', n'', r'⟩
          rw [hr] at h
          cases r' with
          | error e2 =>
              dsimp only at h
              obtain rfl := Except.error.inj h
              exact ih n' e2 (by rw [hr])
          | ok dis => exact absurd h (by simp)

/-- The only error the dictionary loop can produce wraps a failed
interactive read. -/
theorem configureLoop_error_shape (d : Dictionaries) (stdin : StdinStub) :
    ∀ (setup : List (String × SetupDictionary)) (n : Nat) (e : Err),
    (configureLoop d stdin n setup).2.2 = Except.error e →
    ∃ inner, e = Err.wrapped "error reading prompt input" inner := by
  intro setup
  induction setup with
  | nil => intro n e h; exact absurd h (by simp [configureLoop])
  | cons hd tl ih =>
      intro n e h
      obtain ⟨name, settings⟩ := hd
      unfold configureLoop at h
      rcases hc : configureItems d stdin n settings.Items with ⟨evs, n', r⟩
      rw [hc] at h
      cases r with
      | error e1 =>
          dsimp only at h
          obtain rfl := Except.error.inj h
          exact configureItems_error_shape d stdin settings.Items n e1 (by rw [hc])
      | ok items =>
          dsimp only at h
          rcases hr : configureLoop d stdin n' tl with ⟨evs', n'', r'⟩
          rw [hr] at h
          cases r' with
          | error e2 =>
              dsimp only at h
              obtain rfl := Except.error.inj h
              exact ih n' e2 (by rw [hr])
          | ok dicts => exact absurd h (by simp)

/-- A successfully resolved item carries the declared key. -/
theorem configureItem_ok_key (d : Dictionaries) (stdin : StdinStub) (n : Nat)
    (key : String) (item : SetupItem) (di : DictionaryItem)
    (h : (configureItem d stdin n key item).2.2 = Except.ok di) : di.Key = key := by
  unfold configureItem at h
  dsimp only at h
  split at h
  · cases hs : stdin n with
    | error e0 => rw [hs] at h; exact absurd h (by simp)
    | ok v =>
        rw [hs] at h
        dsimp only at h
        obtain rfl := Except.ok.inj h
        rfl
  · dsimp only at h
    obtain rfl := Except.ok.inj h
    rfl

/-- On success the item loop yields exactly one resolved record per
declared item, in order, carrying the declared keys. -/
theorem configureItems_ok_keys (d : Dictionaries) (stdin : StdinStub) :
    ∀ (items : List (String × SetupItem)) (n : Nat) (dis : List DictionaryItem),
    (configureItems d stdin n items).2.2 = Except.ok dis →
    dis.map DictionaryItem.Key = items.map Prod.fst := by
  intro items
  induction items with
  | nil =>
      intro n dis h
      obtain rfl := Except.ok.inj h
      rfl
  | cons hd tl ih =>
      intro n dis h
      obtain ⟨key, item⟩ := hd
      unfold configureItems at h
      rcases hc : configureItem d stdin n key item with ⟨evs, n', r⟩
      rw [hc] at h
      cases r with
      | error e1 => exact absurd h (by simp)
      | ok di =>
          dsimp only at h
          rcases hr : configureItems d stdin n' tl with ⟨evs', n'', r'⟩
          rw [hr] at h
          cases r' with
          | error e2 => exact absurd h (by simp)
          | ok dis' =>
              dsimp only at h
              obtain rfl := Except.ok.inj h
              have hkey : di.Key = key :=
                configureItem_ok_key d stdin n key item di (by rw [hc])
              simp [hkey, ih n' dis' (by rw [hr])]

/-- On success the dictionary loop yields exactly one resolved dictionary
per declared name, in order, whose items carry the declared keys. -/
theorem configureLoop_ok_shape (d : Dictionaries) (stdin : StdinStub) :
    ∀ (setup : List (String × SetupDictionary)) (n : Nat) (l : List Dictionary),
    (configureLoop d stdin n setup).2.2 = Except.ok l →
    l.map Dictionary.Name = setup.map Prod.fst
    ∧ l.map (fun dict => dict.Items.map DictionaryItem.Key)
        = setup.map (fun p => p.2.Items.map Prod.fst) := by
  intro setup
  induction setup with
  | nil =>
      intro n l h
      obtain rfl := Except.ok.inj h
      exact ⟨rfl, rfl⟩
  | cons hd tl ih =>
      intro n l h
      obtain ⟨name, settings⟩ := hd
      unfold configureLoop at h
      rcases hc : configureItems d stdin n settings.Items with ⟨evs, n', r⟩
      rw [hc] at h
      cases r with
      | error e1 => exact absurd h (by simp)
      | ok items =>
          dsimp only at h
          rcases hr : configureLoop d stdin n' tl with ⟨evs', n'', r'⟩
          rw [hr] at h
          cases r' with
          | error e2 => exact absurd h (by simp)
          | ok dicts =>
              dsimp only at h
              obtain rfl := Except.ok.inj h
              have hkeys := configureItems_ok_keys d stdin settings.Items n items (by rw [hc])
              obtain ⟨hn, hk⟩ := ih n' dicts (by rw [hr])
              exact ⟨by simp [hn], by simp [hkeys, hk]⟩

/-- C4: `Configure` resolves every declared item to a concrete value — in
non-interactive or accept-defaults mode (and on an interactive empty line)
the value is the declared default, or the literal `"example"` when no
default was declared; the only error it can return wraps a failed
interactive read; and on success it appends one resolved record per item
and one resolved dictionary per declared name. -/
theorem configure_resolution (d : Dictionaries) (stdin : StdinStub)
    (required : List Dictionary) :
    ((d.AcceptDefaults || d.NonInteractive) = true →
      d.Configure stdin required = ([], .ok (required ++ d.Setup.map fun p =>
        ⟨p.1, p.2.Items.map fun q =>
          ⟨q.1, if q.2.Value ≠ "" then q.2.Value else "example"⟩⟩)))
    ∧ (∀ (n : Nat) (key : String) (item : SetupItem),
        d.AcceptDefaults = false → d.NonInteractive = false →
        stdin n = .ok "" →
        (configureItem d stdin n key item).2.2
          = Except.ok ⟨key, if item.Value ≠ "" then item.Value else "example"⟩)
    ∧ (∀ e, (d.Configure stdin required).2 = Except.error e →
        ∃ inner, e = Err.wrapped "error reading prompt input" inner)
    ∧ (∀ l, (d.Configure stdin required).2 = Except.ok l →
        ∃ l', l = required ++ l'
          ∧ l'.map Dictionary.Name = d.Setup.map Prod.fst
          ∧ l'.map (fun dict => dict.Items.map DictionaryItem.Key)
              = d.Setup.map (fun p => p.2.Items.map Prod.fst)) := by
  refine ⟨?_, ?_, ?_, ?_⟩
  · intro hmode
    unfold Dictionaries.Configure
    rw [configureLoop_defaults d stdin hmode d.Setup 0]
  · intro n key item hA hN hs
    have hg : (!d.AcceptDefaults && !d.NonInteractive) = true := by simp [hA, hN]
    simp [configureItem, hg, hs]
  · intro e h
    unfold Dictionaries.Configure at h
    rcases hc : configureLoop d stdin 0 d.Setup with ⟨evs, n, r⟩
    rw [hc] at h
    cases r with
    | error e1 =>
        dsimp only at h
        obtain rfl := Except.error.inj h
        exact configureLoop_error_shape d stdin d.Setup 0 e1 (by rw [hc])
    | ok dicts => exact absurd h (by simp)
  · intro l h
    unfold Dictionaries.Configure at h
    rcases hc : configureLoop d stdin 0 d.Setup with ⟨evs, n, r⟩
    rw [hc] at h
    cases r with
    | error e1 => exact absurd h (by simp)
    | ok dicts =>
        dsimp only at h
        obtain rfl := Except.ok.inj h
        obtain ⟨hn, hk⟩ := configureLoop_ok_shape d stdin d.Setup 0 dicts (by rw [hc])
        exact ⟨dicts, rfl, hn, hk⟩

/-- Witness for `configure_resolution` at concrete inputs: a one-item
dictionary with no declared default resolves to `"example"` both in
accept-defaults mode and on an interactive empty line; a failing read
yields only the wrapped read error; the resolved list is appended. -/
theorem configure_resolution_witness :
    (Dictionaries.Configure ⟨true, false, "sid", 1, [("dictA", ⟨"", [("k1", ⟨"", ""⟩)]⟩)]⟩
        (fun _ => .ok "") []
      = ([], .ok [⟨"dictA", [⟨"k1", "example"⟩]⟩]))
    ∧ ((configureItem ⟨false, false, "sid", 1, []⟩ (fun _ => .ok "") 0 "k1" ⟨"", ""⟩).2.2
      = Except.ok ⟨"k1", "example"⟩)
    ∧ (∃ inner, Err.wrapped "error reading prompt input" (Err.str "io")
        = Err.wrapped "error reading prompt input" inner)
    ∧ (∃ l', ([⟨"dictA", [⟨"k1", "example"⟩]⟩] : List Dictionary) = [] ++ l'
        ∧ l'.map Dictionary.Name
            = [("dictA", (⟨"", [("k1", ⟨"", ""⟩)]⟩ : SetupDictionary))].map Prod.fst
        ∧ l'.map (fun dict => dict.Items.map DictionaryItem.Key)
            = [("dictA", (⟨"", [("k1", ⟨"", ""⟩)]⟩ : SetupDictionary))].map
                (fun p => p.2.Items.map Prod.fst)) := by
  refine ⟨?_, ?_, ?_, ?_⟩
  · have h := (configure_resolution ⟨true, false, "sid", 1, [("dictA", ⟨"", [("k1", ⟨"", ""⟩)]⟩)]⟩
      (fun _ => .ok "") []).1 rfl
    simpa using h
  · exact (configure_resolution ⟨false, false, "sid", 1, []⟩
      (fun _ => .ok "") []).2.1 0 "k1" ⟨"", ""⟩ rfl rfl rfl
  · exact (configure_resolution ⟨false, false, "sid", 1, [("dictA", ⟨"", [("k1", ⟨"", ""⟩)]⟩)]⟩
      (fun _ => .error (Err.str "io")) []).2.2.1
      (Err.wrapped "error reading prompt input" (Err.str "io")) rfl
  · exact (configure_resolution ⟨true, false, "sid", 1, [("dictA", ⟨"", [("k1", ⟨"", ""⟩)]⟩)]⟩
      (fun _ => .ok "") []).2.2.2 [⟨"dictA", [⟨"k1", "example"⟩]⟩] rfl

/-- C6: `Create` with no spinner configured returns the
please-file-an-issue remediation error wrapping the internal-logic-error
message, with an empty trace (no API-client or spinner call attempted). -/
theorem create_noSpinner_remediation (d : Dictionaries) (api : ApiStub)
    (required : List Dictionary) :
    d.Create none api required =
      ([], some (Err.remediation
        (Err.str "internal logic error: no text.Progress configured for setup.Dictionaries")
        Remediation.bug)) := rfl

/-- Appending a failure-free prefix preserves fail-stopped traces. -/
theorem noApiCallAfterFailure_append (xs ys : List SetupEvent)
    (hx : (xs.all fun e => !e.isFailedApiCall) = true)
    (hy : noApiCallAfterFailure ys = true) :
    noApiCallAfterFailure (xs ++ ys) = true := by
  induction xs with
  | nil => simpa using hy
  | cons x xs ih =>
      simp only [List.all_cons, Bool.and_eq_true, Bool.not_eq_true'] at hx
      rw [List.cons_append]
      unfold noApiCallAfterFailure
      rw [hx.1]
      simp only [Bool.false_eq_true, if_false]
      exact ih (by simpa using hx.2)

/-- Composing a failure-free prefix with a fail-stopped tail (the shape of
every recursive step in `Create`) is fail-stopped. -/
theorem failStop_compose (evs : List SetupEvent)
    (hevs : (evs.all fun e => !e.isFailedApiCall) = true)
    (p : List SetupEvent × CallCounters × Option Err)
    (hp1 : noApiCallAfterFailure p.1 = true)
    (hp2 : p.2.2 = none → (p.1.all fun e => !e.isFailedApiCall) = true) :
    noApiCallAfterFailure (evs ++ p.1) = true
    ∧ (p.2.2 = none → ((evs ++ p.1).all fun e => !e.isFailedApiCall) = true) := by
  constructor
  · exact noApiCallAfterFailure_append evs p.1 hevs hp1
  · intro h
    rw [List.all_append, hevs, hp2 h]
    rfl

/-- `createItem1` is fail-stopped: no API call follows a failed one in its
trace, and a nil result means every API call it made succeeded. -/
theorem createItem1_failStop (d : Dictionaries) (api : ApiStub) (sp : SpinnerStub)
    (ctr : CallCounters) (dictID : String) (item : DictionaryItem) :
    noApiCallAfterFailure (createItem1 d api sp ctr dictID item).1 = true
    ∧ ((createItem1 d api sp ctr dictID item).2.2 = none →
        ((createItem1 d api sp ctr dictID item).1.all fun e => !e.isFailedApiCall) = true) := by
  unfold createItem1
  cases sp.start ctr.spinStart with
  | some e => exact ⟨rfl, fun h => absurd h (by simp)⟩
  | none =>
      dsimp only
      cases api.createDictionaryItem ctr.apiItem with
      | error ae =>
          dsimp only
          cases sp.stopFail ctr.spinStopFail with
          | some e => exact ⟨rfl, fun h => absurd h (by simp)⟩
          | none => exact ⟨rfl, fun h => absurd h (by simp)⟩
      | ok u =>
          dsimp only
          cases sp.stop ctr.spinStop with
          | some e => exact ⟨rfl, fun _ => rfl⟩
          | none => exact ⟨rfl, fun _ => rfl⟩

/-- `createItems` is fail-stopped. -/
theorem createItems_failStop (d : Dictionaries) (api : ApiStub) (sp : SpinnerStub)
    (dictID : String) :
    ∀ (items : List DictionaryItem) (ctr : CallCounters),
    noApiCallAfterFailure (createItems d api sp ctr dictID items).1 = true
    ∧ ((createItems d api sp ctr dictID items).2.2 = none →
        ((createItems d api sp ctr dictID items).1.all fun e => !e.isFailedApiCall) = true) := by
  intro items
  induction items with
  | nil => intro ctr; exact ⟨rfl, fun _ => rfl⟩
  | cons hd tl ih =>
      intro ctr
      have h1 := createItem1_failStop d api sp ctr dictID hd
      unfold createItems
      rcases hc : createItem1 d api sp ctr dictID hd with ⟨evs, ctr', r⟩
      rw [hc] at h1
      cases r with
      | some e => exact ⟨h1.1, fun h => absurd h (by simp)⟩
      | none =>
          have hevs : (evs.all fun e => !e.isFailedApiCall) = true := h1.2 rfl
          exact failStop_compose evs hevs (createItems d api sp ctr' dictID tl)
            (ih ctr').1 (ih ctr').2

/-- `createDict1` is fail-stopped. -/
theorem createDict1_failStop (d : Dictionaries) (api : ApiStub) (sp : SpinnerStub)
    (ctr : CallCounters) (dict : Dictionary) :
    noApiCallAfterFailure (createDict1 d api sp ctr dict).1 = true
    ∧ ((createDict1 d api sp ctr dict).2.2 = none →
        ((createDict1 d api sp ctr dict).1.all fun e => !e.isFailedApiCall) = true) := by
  unfold createDict1
  cases sp.start ctr.spinStart with
  | some e => exact ⟨rfl, fun h => absurd h (by simp)⟩
  | none =>
      dsimp only
      cases api.createDictionary ctr.apiDict with
      | error ae =>
          dsimp only
          cases sp.stopFail ctr.spinStopFail with
          | some e => exact ⟨rfl, fun h => absurd h (by simp)⟩
          | none => exact ⟨rfl, fun h => absurd h (by simp)⟩
      | ok dictID =>
          dsimp only
          cases sp.stop ctr.spinStop with
          | some e => exact ⟨rfl, fun h => absurd h (by simp)⟩
          | none =>
              dsimp only
              split
              · refine failStop_compose _ ?_ _
                  (createItems_failStop d api sp dictID dict.Items _).1
                  (createItems_failStop d api sp dictID dict.Items _).2
                rfl
              · exact ⟨rfl, fun _ => rfl⟩

/-- `createLoop` is fail-stopped. -/
theorem createLoop_failStop (d : Dictionaries) (api : ApiStub) (sp : SpinnerStub) :
    ∀ (dicts : List Dictionary) (ctr : CallCounters),
    noApiCallAfterFailure (createLoop d api sp ctr dicts).1 = true
    ∧ ((createLoop d api sp ctr dicts).2.2 = none →
        ((createLoop d api sp ctr dicts).1.all fun e => !e.isFailedApiCall) = true) := by
  intro dicts
  induction dicts with
  | nil => intro ctr; exact ⟨rfl, fun _ => rfl⟩
  | cons hd tl ih =>
      intro ctr
      have h1 := createDict1_failStop d api sp ctr hd
      unfold createLoop
      rcases hc : createDict1 d api sp ctr hd with ⟨evs, ctr', r⟩
      rw [hc] at h1
      cases r with
      | some e => exact ⟨h1.1, fun h => absurd h (by simp)⟩
      | none =>
          have hevs : (evs.all fun e => !e.isFailedApiCall) = true := h1.2 rfl
          exact failStop_compose evs hevs (createLoop d api sp ctr' tl)
            (ih ctr').1 (ih ctr').2

/-- C7: `Create` stops at the first failure — no API call ever follows a
failed one in its trace (so a failed dictionary create is never followed
by further dictionaries or items, and a failed item create leaves all
later items and dictionaries uncreated); a nil return means every API
call succeeded (so any failure makes `Create` return an error); and
when the spinner cooperates the returned error is the wrapped create
error.  The event vocabulary is faithful to the source, which issues no
delete call, so no compensating deletion can occur on any path. -/
theorem create_failFast (d : Dictionaries) (sp : SpinnerStub) (api : ApiStub)
    (required : List Dictionary) :
    noApiCallAfterFailure (d.Create (some sp) api required).1 = true
    ∧ ((d.Create (some sp) api required).2 = none →
        ((d.Create (some sp) api required).1.all fun e => !e.isFailedApiCall) = true)
    ∧ (∀ (ctr : CallCounters) (dict : Dictionary) (ae : Err),
        sp.start ctr.spinStart = none →
        api.createDictionary ctr.apiDict = .error ae →
        sp.stopFail ctr.spinStopFail = none →
        (createDict1 d api sp ctr dict).2.2
          = some (Err.wrappedNil "error creating dictionary"))
    ∧ (∀ (ctr : CallCounters) (dictID : String) (item : DictionaryItem) (ae : Err),
        sp.start ctr.spinStart = none →
        api.createDictionaryItem ctr.apiItem = .error ae →
        sp.stopFail ctr.spinStopFail = none →
        (createItem1 d api sp ctr dictID item).2.2
          = some (Err.wrappedNil "error creating dictionary item")) := by
  have hloop := createLoop_failStop d api sp required CallCounters.init
  refine ⟨?_, ?_, ?_, ?_⟩
  · show noApiCallAfterFailure (createLoop d api sp CallCounters.init required).1 = true
    exact hloop.1
  · show (createLoop d api sp CallCounters.init required).2.2 = none →
      ((createLoop d api sp CallCounters.init required).1.all
        fun e => !e.isFailedApiCall) = true
    exact hloop.2
  · intro ctr dict ae h1 h2 h3
    unfold createDict1
    rw [h1]
    dsimp only
    rw [h2]
    dsimp only
    rw [h3]
  · intro ctr dictID item ae h1 h2 h3
    unfold createItem1
    rw [h1]
    dsimp only
    rw [h2]
    dsimp only
    rw [h3]

/-- C8: when a create call fails and the subsequent `Spinner.StopFail`
itself errors, `Create` returns the spinner's error, superseding the
operation's own wrapped error, both on the dictionary path and on the
item path. -/
theorem create_stopFail_supersedes (d : Dictionaries) (api : ApiStub) (sp : SpinnerStub)
    (ctr : CallCounters) (dict : Dictionary) (dictID : String) (item : DictionaryItem) :
    (∀ (ae se : Err), sp.start ctr.spinStart = none →
      api.createDictionary ctr.apiDict = .error ae →
      sp.stopFail ctr.spinStopFail = some se →
      (createDict1 d api sp ctr dict).2.2 = some se)
    ∧ (∀ (ae se : Err), sp.start ctr.spinStart = none →
      api.createDictionaryItem ctr.apiItem = .error ae →
      sp.stopFail ctr.spinStopFail = some se →
      (createItem1 d api sp ctr dictID item).2.2 = some se) := by
  constructor
  · intro ae se h1 h2 h3
    unfold createDict1
    rw [h1]
    dsimp only
    rw [h2]
    dsimp only
    rw [h3]
  · intro ae se h1 h2 h3
    unfold createItem1
    rw [h1]
    dsimp only
    rw [h2]
    dsimp only
    rw [h3]

/-- Witness for `create_failFast` at concrete inputs: an all-success run
has a failure-free trace; a failing dictionary create and a failing item
create (with a cooperating spinner) each return the wrapped error. -/
theorem create_failFast_witness :
    ((Dictionaries.Create ⟨false, false, "sid", 1, []⟩
        (some ⟨fun _ => none, fun _ => none, fun _ => none⟩)
        ⟨fun _ => .ok "did", fun _ => .ok ()⟩
        [⟨"A", [⟨"k1", "v1"⟩]⟩]).1.all fun e => !e.isFailedApiCall) = true
    ∧ (createDict1 ⟨false, false, "sid", 1, []⟩
        ⟨fun _ => .error (Err.str "dfail"), fun _ => .ok ()⟩
        ⟨fun _ => none, fun _ => none, fun _ => none⟩
        CallCounters.init ⟨"A", []⟩).2.2
      = some (Err.wrappedNil "error creating dictionary")
    ∧ (createItem1 ⟨false, false, "sid", 1, []⟩
        ⟨fun _ => .ok "did", fun _ => .error (Err.str "ifail")⟩
        ⟨fun _ => none, fun _ => none, fun _ => none⟩
        CallCounters.init "did" ⟨"k1", "v1"⟩).2.2
      = some (Err.wrappedNil "error creating dictionary item") := by
  refine ⟨?_, ?_, ?_⟩
  · exact (create_failFast ⟨false, false, "sid", 1, []⟩
      ⟨fun _ => none, fun _ => none, fun _ => none⟩
      ⟨fun _ => .ok "did", fun _ => .ok ()⟩
      [⟨"A", [⟨"k1", "v1"⟩]⟩]).2.1 rfl
  · exact (create_failFast ⟨false, false, "sid", 1, []⟩
      ⟨fun _ => none, fun _ => none, fun _ => none⟩
      ⟨fun _ => .error (Err.str "dfail"), fun _ => .ok ()⟩ []).2.2.1
      CallCounters.init ⟨"A", []⟩ (Err.str "dfail") rfl rfl rfl
  · exact (create_failFast ⟨false, false, "sid", 1, []⟩
      ⟨fun _ => none, fun _ => none, fun _ => none⟩
      ⟨fun _ => .ok "did", fun _ => .error (Err.str "ifail")⟩ []).2.2.2
      CallCounters.init "did" ⟨"k1", "v1"⟩ (Err.str "ifail") rfl rfl rfl

/-- Witness for `create_stopFail_supersedes` at concrete inputs: the
spinner's `StopFail` error is what `Create` returns on both paths. -/
theorem create_stopFail_supersedes_witness :
    (createDict1 ⟨false, false, "sid", 1, []⟩
        ⟨fun _ => .error (Err.str "dfail"), fun _ => .ok ()⟩
        ⟨fun _ => none, fun _ => none, fun _ => some (Err.str "spin")⟩
        CallCounters.init ⟨"A", []⟩).2.2 = some (Err.str "spin")
    ∧ (createItem1 ⟨false, false, "sid", 1, []⟩
        ⟨fun _ => .ok "did", fun _ => .error (Err.str "ifail")⟩
        ⟨fun _ => none, fun _ => none, fun _ => some (Err.str "spin")⟩
        CallCounters.init "did" ⟨"k1", "v1"⟩).2.2 = some (Err.str "spin") := by
  constructor
  · exact (create_stopFail_supersedes ⟨false, false, "sid", 1, []⟩
      ⟨fun _ => .error (Err.str "dfail"), fun _ => .ok ()⟩
      ⟨fun _ => none, fun _ => none, fun _ => some (Err.str "spin")⟩
      CallCounters.init ⟨"A", []⟩ "did" ⟨"k1", "v1"⟩).1
      (Err.str "dfail") (Err.str "spin") rfl rfl rfl
  · exact (create_stopFail_supersedes ⟨false, false, "sid", 1, []⟩
      ⟨fun _ => .ok "did", fun _ => .error (Err.str "ifail")⟩
      ⟨fun _ => none, fun _ => none, fun _ => some (Err.str "spin")⟩
      CallCounters.init ⟨"A", []⟩ "did" ⟨"k1", "v1"⟩).2
      (Err.str "ifail") (Err.str "spin") rfl rfl rfl

/-! ## The list commands and the verbose/JSON guard

The seven list commands in the corpus (s3, snippet, datadog, cloudfiles,
newrelic, sftp, configstoreentry) share the same opening: when both
verbose mode and JSON output are requested, `Exec` returns
`fsterr.ErrInvalidVerboseJSONCombo` before anything else runs.  Each
`Exec` is embedded below down to its API call, with service resolution
and the API client as stubs; the trace records the collaborator calls
made.  Output rendering after a successful API call, and the context
mapping some commands attach when logging an error, are elided (the
claims under study end at the API call). -/

/-- `fsterr.ErrInvalidVerboseJSONCombo` (from `pkg/errors`, outside the
corpus): the user-input error for requesting both verbose and JSON. -/
def ErrInvalidVerboseJSONCombo : Err := Err.str "invalid flag combination, --verbose and --json"

/-- A collaborator call made by a list command. -/
inductive ListEvent where
  /-- `cmd.ServiceDetails` (service resolution, may itself call the API). -/
  | serviceDetails : ListEvent
  /-- The resource-list API call (`ListS3s`, `ListSnippets`, `ListDatadog`,
  `ListConfigStoreItems`). -/
  | apiList : ListEvent
deriving DecidableEq, Repr

/-- Outcome of one list-command `Exec`: collaborator trace, errors appended
to the error log, and the returned error. -/
structure ListResult where
  events : List ListEvent
  errLog : List Err
  ret : Option Err
deriving DecidableEq, Repr

/-- `ListCommand.Exec` of the s3 package (`part_000` lines 67-96):
verbose/JSON guard, `cmd.ServiceDetails` resolution, `ListS3s` call.
`serviceDetails` and `listS3s` are stubs for the two collaborator calls. -/
def s3ListExec (verbose json : Bool)
    (serviceDetails : Except Err (String × Int))
    (listS3s : String → Int → Option Err) : ListResult :=
  if verbose && json then ⟨[], [], some ErrInvalidVerboseJSONCombo⟩
  else
    match serviceDetails with
    | .error e => ⟨[.serviceDetails], [e], some e⟩
    | .ok (serviceID, serviceVersion) =>
        match listS3s serviceID serviceVersion with
        | some e => ⟨[.serviceDetails, .apiList], [e], some e⟩
        | none => ⟨[.serviceDetails, .apiList], [], none⟩

/-- `ListCommand.Exec` of the snippet package (`part_002` lines 68-110). -/
def snippetListExec (verbose json : Bool)
    (serviceDetails : Except Err (String × Int))
    (listSnippets : String → Int → Option Err) : ListResult :=
  if verbose && json then ⟨[], [], some ErrInvalidVerboseJSONCombo⟩
  else
    match serviceDetails with
    | .error e => ⟨[.serviceDetails], [e], some e⟩
    | .ok (serviceID, serviceVersion) =>
        match listSnippets serviceID serviceVersion with
        | some e => ⟨[.serviceDetails, .apiList], [e], some e⟩
        | none => ⟨[.serviceDetails, .apiList], [], none⟩

/-- `ListCommand.Exec` of the datadog package (`list.go` lines 67-98). -/
def datadogListExec (verbose json : Bool)
    (serviceDetails : Except Err (String × Int))
    (listDatadog : String → Int → Option Err) : ListResult :=
  if verbose && json then ⟨[], [], some ErrInvalidVerboseJSONCombo⟩
  else
    match serviceDetails with
    | .error e => ⟨[.serviceDetails], [e], some e⟩
    | .ok (serviceID, serviceVersion) =>
        match listDatadog serviceID serviceVersion with
        | some e => ⟨[.serviceDetails, .apiList], [e], some e⟩
        | none => ⟨[.serviceDetails, .apiList], [], none⟩

/-- `ListCommand.Exec` of the cloudfiles package (datadog `list.go` lines
204-285). -/
def cloudfilesListExec (verbose json : Bool)
    (serviceDetails : Except Err (String × Int))
    (listCloudfiles : String → Int → Option Err) : ListResult :=
  if verbose && json then ⟨[], [], some ErrInvalidVerboseJSONCombo⟩
  else
    match serviceDetails with
    | .error e => ⟨[.serviceDetails], [e], some e⟩
    | .ok (serviceID, serviceVersion) =>
        match listCloudfiles serviceID serviceVersion with
        | some e => ⟨[.serviceDetails, .apiList], [e], some e⟩
        | none => ⟨[.serviceDetails, .apiList], [], none⟩

/-- `ListCommand.Exec` of the newrelic package (datadog `list.go` lines
353-395). -/
def newrelicListExec (verbose json : Bool)
    (serviceDetails : Except Err (String × Int))
    (listNewRelic : String → Int → Option Err) : ListResult :=
  if verbose && json then ⟨[], [], some ErrInvalidVerboseJSONCombo⟩
  else
    match serviceDetails with
    | .error e => ⟨[.serviceDetails], [e], some e⟩
    | .ok (serviceID, serviceVersion) =>
        match listNewRelic serviceID serviceVersion with
        | some e => ⟨[.serviceDetails, .apiList], [e], some e⟩
        | none => ⟨[.serviceDetails, .apiList], [], none⟩

/-- `ListCommand.Exec` of the sftp package (datadog `list.go` lines
523-604). -/
def sftpListExec (verbose json : Bool)
    (serviceDetails : Except Err (String × Int))
    (listSFTPs : String → Int → Option Err) : ListResult :=
  if verbose && json then ⟨[], [], some ErrInvalidVerboseJSONCombo⟩
  else
    match serviceDetails with
    | .error e => ⟨[.serviceDetails], [e], some e⟩
    | .ok (serviceID, serviceVersion) =>
        match listSFTPs serviceID serviceVersion with
        | some e => ⟨[.serviceDetails, .apiList], [e], some e⟩
        | none => ⟨[.serviceDetails, .apiList], [], none⟩

/-- `ListCommand.Exec` of the configstoreentry package (`list.go` lines
44-63): this variant resolves no service target — the guard is followed
directly by `ListConfigStoreItems`. -/
def configStoreEntryListExec (verbose json : Bool)
    (listConfigStoreItems : Option Err) : ListResult :=
  if verbose && json then ⟨[], [], some ErrInvalidVerboseJSONCombo⟩
  else
    match listConfigStoreItems with
    | some e => ⟨[.apiList], [e], some e⟩
    | none => ⟨[.apiList], [], none⟩

/-- C9: with both verbose and JSON modes enabled, every list command in
the corpus (s3, snippet, datadog, cloudfiles, newrelic, sftp,
configstoreentry) returns the invalid-verbose-JSON-combination error as
its first action — the trace is empty, so no service resolution and no
API call was attempted, and nothing was logged. -/
theorem list_verbose_json_guard
    (sd₁ sd₂ sd₃ sd₄ sd₅ sd₆ : Except Err (String × Int))
    (f₁ f₂ f₃ f₄ f₅ f₆ : String → Int → Option Err) (f₇ : Option Err) :
    s3ListExec true true sd₁ f₁ = ⟨[], [], some ErrInvalidVerboseJSONCombo⟩
    ∧ snippetListExec true true sd₂ f₂ = ⟨[], [], some ErrInvalidVerboseJSONCombo⟩
    ∧ datadogListExec true true sd₃ f₃ = ⟨[], [], some ErrInvalidVerboseJSONCombo⟩
    ∧ cloudfilesListExec true true sd₄ f₄ = ⟨[], [], some ErrInvalidVerboseJSONCombo⟩
    ∧ newrelicListExec true true sd₅ f₅ = ⟨[], [], some ErrInvalidVerboseJSONCombo⟩
    ∧ sftpListExec true true sd₆ f₆ = ⟨[], [], some ErrInvalidVerboseJSONCombo⟩
    ∧ configStoreEntryListExec true true f₇ = ⟨[], [], some ErrInvalidVerboseJSONCombo⟩ :=
  ⟨rfl, rfl, rfl, rfl, rfl, rfl, rfl⟩

/-- C10: the deploy sub-command's `StatusCheckPath` is overwritten
unconditionally with the publish command's `statusCheckPath` (whose flag
default is `"/"`) on every invocation, with no was-set marker and no
truthiness gate. -/
theorem publish_statusCheckPath_unconditional (c : PublishCommand) (d : DeployCommand)
    (m : ManifestData) :
    (copyDeployFields c d).StatusCheckPath = c.statusCheckPath
    ∧ (newPublishCommand m).statusCheckPath = "/" :=
  ⟨rfl, rfl⟩

end FastlyCLI
